import Mathlib

/-!
Verification of the conversation-topology classifier and exporter of
`ai-chat-flow` (source: the topology service module). The definitions below
are a shallow embedding of the TypeScript source: JS strings become `String`,
`string.includes(sub)` becomes infix search on the character list,
`toLowerCase` maps `Char.toLower`, JS numbers (used only at integer values
here) become `Nat`, optional fields become `Option`, and the JSON-serializable
export object becomes an explicit Lean structure. The ambient clock read by
the exporter (`new Date().toISOString()`) is passed as an explicit `now`
argument. Literal brace characters in pattern strings are written with
hexadecimal escapes.
-/

namespace ChatFlow

/-- A chat message record (shared schema `messages` table, as consumed by the
classifier and exporter). -/
structure Message where
  id : String
  sessionId : String
  role : String
  content : String
  topologyImpact : Option String
  metadata : Option String
  createdAt : String
deriving Repr, DecidableEq

/-- A session record (shared schema `sessions` table); only the fields read
by the exporter are relevant. -/
structure Session where
  id : String
  title : String
  createdAt : String
  updatedAt : String
deriving Repr, DecidableEq

/-- The `structure` sub-object of a `TopologyPattern`. -/
structure TopologyStructure where
  procedural : List String
  perspectival : List String
  participatory : String
deriving Repr, DecidableEq

/-- The output record `TopologyPattern` of the classifier. -/
structure TopologyPattern where
  pattern : String
  order : Nat
  threads : Nat
  complexity : String
  primeFactors : List String
  struct : TopologyStructure
  nestingDepth : Nat
deriving Repr, DecidableEq

/-- The internal staging record `ThreadAnalysis`. -/
structure ThreadAnalysis where
  order : Nat
  threads : Nat
  nestingDepth : Nat
  branchingPoints : Nat
  closureAttempts : Nat
deriving Repr, DecidableEq

/-- JS `s.includes(sub)`: `sub` occurs as a contiguous substring of `s`. -/
def strIncludes (s sub : String) : Bool :=
  decide (sub.data <:+: s.data)

/-- JS `s.toLowerCase()` (character-wise lowering; the keywords involved are
ASCII). -/
def strToLower (s : String) : String :=
  ⟨s.data.map Char.toLower⟩

/-- The branching-signal test applied to one message (first conditional in
`analyzeThreads`). -/
def isBranching (m : Message) : Bool :=
  strIncludes m.content "?" ||
  strIncludes (strToLower m.content) "what" ||
  strIncludes (strToLower m.content) "how"

/-- The closure-signal test applied to one message (second conditional in
`analyzeThreads`). -/
def isClosure (m : Message) : Bool :=
  strIncludes (strToLower m.content) "conclusion" ||
  strIncludes (strToLower m.content) "summary" ||
  m.topologyImpact == some "closure_attempt"

/-- The order metric of `analyzeThreads` as a function of the two counters:
sequential reassignment, last true condition wins. -/
def orderOf (messageCount branchingPoints : Nat) : Nat :=
  let order := 1
  let order := if messageCount > 3 then 2 else order
  let order := if messageCount > 8 ∨ branchingPoints > 2 then 3 else order
  let order := if messageCount > 15 ∨ branchingPoints > 4 then 4 else order
  order

/-- `analyzeThreads`: scan the messages for branching/closure signals, then
derive order, threads and nesting depth. `Math.ceil(b / 2) = (b + 1) / 2` and
`Math.floor(b / 2) = b / 2` on naturals. -/
def analyzeThreads (messages : List Message) : ThreadAnalysis :=
  let messageCount := messages.length
  let branchingPoints := messages.countP (fun m => isBranching m)
  let closureAttempts := messages.countP (fun m => isClosure m)
  let order := orderOf messageCount branchingPoints
  let threads := max 1 (min (order + 1) ((branchingPoints + 1) / 2 + 1))
  let nestingDepth := min 4 (max 1 (branchingPoints / 2 + 1))
  { order := order
    threads := threads
    nestingDepth := nestingDepth
    branchingPoints := branchingPoints
    closureAttempts := closureAttempts }

/-- `determineComplexity`. -/
def determineComplexity (analysis : ThreadAnalysis) : String :=
  if analysis.order = 1 then "monologue"
  else if analysis.order = 2 then "dialogue"
  else if analysis.order = 3 then "complex_dialogue"
  else "multi_threaded_discourse"

/-- The wrapping loop of `generateNestedPattern`: wrap `pattern` in one pair
of parentheses, `n` times. -/
def wrapNest : Nat → String → String
  | 0, pattern => pattern
  | n + 1, pattern => wrapNest n ("(" ++ pattern ++ ")")

/-- `generateNestedPattern`. -/
def generateNestedPattern (depth : Nat) : String :=
  if depth ≤ 1 then "()" else wrapNest (depth - 1) "()"

/-- `generatePattern`, expressed on the three fields it destructures from the
analysis (`order`, `threads`, `nestingDepth`). -/
def renderPattern (order threads nestingDepth : Nat) : String :=
  if order = 1 then "s1=\x7b[()]\x7d"
  else
    let procedural := String.join (List.replicate threads "()")
    let perspectival := generateNestedPattern nestingDepth
    "s" ++ toString order ++ "=\x7b[" ++ procedural ++ "],[(" ++ perspectival ++ ")]\x7d"

/-- `generatePattern` on a `ThreadAnalysis`. -/
def generatePattern (analysis : ThreadAnalysis) : String :=
  renderPattern analysis.order analysis.threads analysis.nestingDepth

/-- `calculatePrimeFactors`: each condition checked independently, tags
appended in the fixed order; `["p1"]` if none applied. -/
def calculatePrimeFactors (analysis : ThreadAnalysis) : List String :=
  let factors : List String := []
  let factors := if analysis.threads ≥ 2 then factors ++ ["p1p1"] else factors
  let factors := if analysis.order ≥ 2 then factors ++ ["p2"] else factors
  let factors := if analysis.order ≥ 3 then factors ++ ["p3"] else factors
  let factors := if analysis.nestingDepth > 2 then factors ++ ["p5"] else factors
  if factors.length > 0 then factors else ["p1"]

/-- `buildStructure`. -/
def buildStructure (analysis : ThreadAnalysis) : TopologyStructure :=
  let procedural := List.replicate analysis.threads "()"
  let perspectival :=
    if analysis.nestingDepth > 1 then
      ["()", generateNestedPattern (analysis.nestingDepth - 1)]
    else ["()"]
  { procedural := procedural
    perspectival := perspectival
    participatory := "s" ++ toString analysis.order }

/-- `createEmptyTopology`. -/
def createEmptyTopology : TopologyPattern :=
  { pattern := "s0=\x7b\x7d"
    order := 0
    threads := 0
    complexity := "empty"
    primeFactors := []
    struct := { procedural := [], perspectival := [], participatory := "s0" }
    nestingDepth := 0 }

/-- `calculateTopology` (the `classify` entry point). -/
def calculateTopology (messages : List Message) : TopologyPattern :=
  let messageCount := messages.length
  if messageCount = 0 then createEmptyTopology
  else
    let threadAnalysis := analyzeThreads messages
    { pattern := generatePattern threadAnalysis
      order := threadAnalysis.order
      threads := threadAnalysis.threads
      complexity := determineComplexity threadAnalysis
      primeFactors := calculatePrimeFactors threadAnalysis
      struct := buildStructure threadAnalysis
      nestingDepth := threadAnalysis.nestingDepth }

/-- The `topology` sub-object of the export document (snake_case external
contract). -/
structure ExportTopology where
  pattern : String
  order : Nat
  threads : Nat
  complexity : String
  prime_factors : List String
  struct : TopologyStructure
  nesting_depth : Nat
deriving Repr, DecidableEq

/-- The per-message projection in the export document. -/
structure ExportMessage where
  id : String
  role : String
  content : String
  topology_impact : Option String
  timestamp : String
  metadata : Option String
deriving Repr, DecidableEq

/-- The fixed metadata block of the export document. -/
structure ExportMetadata where
  participant_count : Nat
  ai_model : String
  total_messages : Nat
  created_at : String
  updated_at : String
deriving Repr, DecidableEq

/-- The export document (`sessionData` in `exportSessionToJson`, before
JSON stringification). -/
structure ExportDocument where
  session_id : String
  timestamp : String
  title : String
  topology : ExportTopology
  messages : List ExportMessage
  metadata : ExportMetadata
deriving Repr, DecidableEq

/-- `exportSessionToJson` (`buildExport`): assembles the export document.
The source reads the clock (`new Date().toISOString()`) for the top-level
`timestamp`; that ambient input is the explicit argument `now`. -/
def exportSessionToJson (sessionId : String) (session : Session)
    (messages : List Message) (topology : TopologyPattern) (now : String) :
    ExportDocument :=
  { session_id := sessionId
    timestamp := now
    title := session.title
    topology :=
      { pattern := topology.pattern
        order := topology.order
        threads := topology.threads
        complexity := topology.complexity
        prime_factors := topology.primeFactors
        struct := topology.struct
        nesting_depth := topology.nestingDepth }
    messages := messages.map (fun msg =>
      { id := msg.id
        role := msg.role
        content := msg.content
        topology_impact := msg.topologyImpact
        timestamp := msg.createdAt
        metadata := msg.metadata })
    metadata :=
      { participant_count := 2
        ai_model := "gpt-4o"
        total_messages := messages.length
        created_at := session.createdAt
        updated_at := session.updatedAt } }

/-- A sample user message with the given content, used to instantiate
universally quantified theorems at concrete inputs. -/
def mkMsg (content : String) : Message :=
  { id := "m1"
    sessionId := "sess-1"
    role := "user"
    content := content
    topologyImpact := none
    metadata := none
    createdAt := "2024-01-01T00:00:00.000Z" }

/-- A sample session record. -/
def sampleSession : Session :=
  { id := "sess-1"
    title := "Demo session"
    createdAt := "2024-01-01T00:00:00.000Z"
    updatedAt := "2024-01-02T00:00:00.000Z" }

/-- A concrete 9-message sequence of which exactly 3 contain a question mark
and none contain the inquiry keywords. -/
def scenarioB : List Message :=
  List.replicate 3 (mkMsg "a?") ++ List.replicate 6 (mkMsg "b")

/-- A concrete topology result, used as exporter input. -/
def sampleTopology : TopologyPattern :=
  calculateTopology [mkMsg "Hello"]

/-! ## Helper lemmas -/

/-- Unfolding `calculateTopology` on a non-empty message list. -/
lemma calculateTopology_of_ne_nil (messages : List Message) (h : messages ≠ []) :
    calculateTopology messages =
      { pattern := generatePattern (analyzeThreads messages)
        order := (analyzeThreads messages).order
        threads := (analyzeThreads messages).threads
        complexity := determineComplexity (analyzeThreads messages)
        primeFactors := calculatePrimeFactors (analyzeThreads messages)
        struct := buildStructure (analyzeThreads messages)
        nestingDepth := (analyzeThreads messages).nestingDepth } := by
  unfold calculateTopology
  rw [if_neg (by simpa [List.length_eq_zero] using h)]

/-- The order metric is at least 1. -/
lemma orderOf_pos (mc bp : Nat) : 1 ≤ orderOf mc bp := by
  unfold orderOf
  dsimp only
  split_ifs <;> omega

/-- The order metric takes values in 1..4. -/
lemma orderOf_mem_range (mc bp : Nat) : orderOf mc bp ∈ [1, 2, 3, 4] := by
  unfold orderOf
  split_ifs <;> simp

/-- Below all thresholds, the order metric is 1. -/
lemma orderOf_eq_one (mc bp : Nat) (h1 : mc ≤ 3) (h2 : bp ≤ 2) : orderOf mc bp = 1 := by
  unfold orderOf
  dsimp only
  split_ifs <;> omega

/-- Bounds of the derived thread count and nesting depth. -/
lemma analyzeThreads_bounds (messages : List Message) :
    1 ≤ (analyzeThreads messages).threads ∧
    (analyzeThreads messages).threads ≤ (analyzeThreads messages).order + 1 ∧
    1 ≤ (analyzeThreads messages).nestingDepth ∧
    (analyzeThreads messages).nestingDepth ≤ 4 := by
  unfold analyzeThreads
  dsimp only
  omega

/-- Shape of the prime-factor list: never empty, and the fallback singleton
appears exactly when no condition fired. -/
lemma primeFactors_spec (a : ThreadAnalysis) :
    calculatePrimeFactors a ≠ [] ∧
    (calculatePrimeFactors a = ["p1"] ↔
      a.threads < 2 ∧ a.order < 2 ∧ a.nestingDepth ≤ 2) := by
  unfold calculatePrimeFactors
  split_ifs <;> simp_all
  omega

/-- The fallback tag occurs only via the fallback branch. -/
lemma primeFactors_p1_mem (a : ThreadAnalysis) (h : "p1" ∈ calculatePrimeFactors a) :
    calculatePrimeFactors a = ["p1"] := by
  unfold calculatePrimeFactors at *
  split_ifs at *
  all_goals simp_all

/-! ## Claims -/

/-- C1 (counterexample): the round-trip law fails at the empty message list.
The empty topology reports order 0, threads 0, nesting depth 0, and the
enumerated rendering rules map that triple to the string s0=[],[(())]
wrapped in braces, not to the stored pattern s0 with empty braces. -/
theorem c1_empty_breaks_roundtrip :
    renderPattern (calculateTopology []).order (calculateTopology []).threads
      (calculateTopology []).nestingDepth ≠ (calculateTopology []).pattern := by
  decide

/-- C1 (amended): for every topology produced by classify on a NON-EMPTY
message sequence, re-rendering the pattern string from the reported triple of
order, threads and nesting depth via the rendering rules reproduces the
stored pattern field exactly. -/
theorem c1_pattern_roundtrip (messages : List Message) (h : messages ≠ []) :
    renderPattern (calculateTopology messages).order (calculateTopology messages).threads
      (calculateTopology messages).nestingDepth = (calculateTopology messages).pattern := by
  rw [calculateTopology_of_ne_nil messages h]
  rfl

/-- C1 (witness): the amended round-trip law at a concrete one-message input. -/
theorem c1_pattern_roundtrip_witness :
    ([mkMsg "Hello"] : List Message) ≠ [] ∧
    renderPattern (calculateTopology [mkMsg "Hello"]).order
      (calculateTopology [mkMsg "Hello"]).threads
      (calculateTopology [mkMsg "Hello"]).nestingDepth =
      (calculateTopology [mkMsg "Hello"]).pattern :=
  ⟨by decide, c1_pattern_roundtrip [mkMsg "Hello"] (by decide)⟩

/-- C2: every sequence of 9 messages of which exactly 3 contain a question
mark, none containing the inquiry keywords, classifies to order 3, threads 3,
nesting depth 2, the expected order-3 pattern string, and prime factors
p1p1, p2, p3 in that order. -/
theorem c2_scenario_b (messages : List Message)
    (hlen : messages.length = 9)
    (hq : messages.countP (fun m => strIncludes m.content "?") = 3)
    (hkw : ∀ m ∈ messages, strIncludes (strToLower m.content) "what" = false ∧
      strIncludes (strToLower m.content) "how" = false) :
    (calculateTopology messages).order = 3 ∧
    (calculateTopology messages).threads = 3 ∧
    (calculateTopology messages).nestingDepth = 2 ∧
    (calculateTopology messages).pattern = "s3=\x7b[()()()],[((()))]\x7d" ∧
    (calculateTopology messages).primeFactors = ["p1p1", "p2", "p3"] := by
  have hne : messages ≠ [] := by
    intro e
    rw [e] at hlen
    simp at hlen
  have hb : (messages.countP fun m => isBranching m) = 3 := by
    rw [← hq]
    refine List.countP_congr fun m hm => ?_
    have hk := hkw m hm
    simp [isBranching, hk.1, hk.2]
  have ha : analyzeThreads messages =
      ⟨3, 3, 2, 3, messages.countP fun m => isClosure m⟩ := by
    unfold analyzeThreads
    rw [hlen, hb]
    rfl
  rw [calculateTopology_of_ne_nil messages hne, ha]
  refine ⟨rfl, rfl, rfl, ?_, ?_⟩
  · show renderPattern 3 3 2 = _
    decide
  · unfold calculatePrimeFactors
    norm_num

/-- C2 (witness): the scenario at a concrete 9-message sequence with exactly
3 question messages. -/
theorem c2_scenario_b_witness :
    scenarioB.length = 9 ∧
    scenarioB.countP (fun m => strIncludes m.content "?") = 3 ∧
    (∀ m ∈ scenarioB, strIncludes (strToLower m.content) "what" = false ∧
      strIncludes (strToLower m.content) "how" = false) ∧
    ((calculateTopology scenarioB).order = 3 ∧
     (calculateTopology scenarioB).threads = 3 ∧
     (calculateTopology scenarioB).nestingDepth = 2 ∧
     (calculateTopology scenarioB).pattern = "s3=\x7b[()()()],[((()))]\x7d" ∧
     (calculateTopology scenarioB).primeFactors = ["p1p1", "p2", "p3"]) :=
  ⟨by decide, by decide, by decide,
   c2_scenario_b scenarioB (by decide) (by decide) (by decide)⟩

/-- C3 (counterexample): the exporter is not a function of the four inputs
alone. Two invocations with identical session id, session record, messages
and topology, made at different clock readings, return different documents:
the top-level timestamp records the generation time. -/
theorem c3_export_clock_dependent :
    exportSessionToJson "sess-1" sampleSession [mkMsg "Hello"] sampleTopology
      "2024-01-01T00:00:00.000Z" ≠
    exportSessionToJson "sess-1" sampleSession [mkMsg "Hello"] sampleTopology
      "2024-01-01T00:00:01.000Z" := by
  decide

/-- C3 (amended): classify is a pure function of the message sequence, and
the exporter is a pure function of its inputs together with the clock
reading; the clock influences only the top-level timestamp field, which
equals the reading, so documents produced at different times agree on every
other field. -/
theorem c3_export_pure_given_clock (sessionId : String) (session : Session)
    (messages : List Message) (topology : TopologyPattern) (now₁ now₂ : String) :
    (exportSessionToJson sessionId session messages topology now₁).timestamp = now₁ ∧
    { exportSessionToJson sessionId session messages topology now₁ with
        timestamp := now₂ } =
      exportSessionToJson sessionId session messages topology now₂ :=
  ⟨rfl, rfl⟩

/-- C4 (counterexample): the bounds fail at the empty message list, a valid
input to classify: the empty topology has threads 0 and nesting depth 0,
violating both lower bounds. -/
theorem c4_empty_violates_bounds :
    ¬(1 ≤ (calculateTopology []).threads ∧
      (calculateTopology []).threads ≤ (calculateTopology []).order + 1 ∧
      1 ≤ (calculateTopology []).nestingDepth ∧
      (calculateTopology []).nestingDepth ≤ 4) := by
  decide

/-- C4 (amended): for every NON-EMPTY message sequence, the topology returned
by classify has threads between 1 and order plus 1, and nesting depth between
1 and 4. -/
theorem c4_bounds (messages : List Message) (h : messages ≠ []) :
    1 ≤ (calculateTopology messages).threads ∧
    (calculateTopology messages).threads ≤ (calculateTopology messages).order + 1 ∧
    1 ≤ (calculateTopology messages).nestingDepth ∧
    (calculateTopology messages).nestingDepth ≤ 4 := by
  rw [calculateTopology_of_ne_nil messages h]
  exact analyzeThreads_bounds messages

/-- C4 (witness): the bounds at a concrete one-message input. -/
theorem c4_bounds_witness :
    ([mkMsg "Hello"] : List Message) ≠ [] ∧
    (1 ≤ (calculateTopology [mkMsg "Hello"]).threads ∧
     (calculateTopology [mkMsg "Hello"]).threads ≤
       (calculateTopology [mkMsg "Hello"]).order + 1 ∧
     1 ≤ (calculateTopology [mkMsg "Hello"]).nestingDepth ∧
     (calculateTopology [mkMsg "Hello"]).nestingDepth ≤ 4) :=
  ⟨by decide, c4_bounds [mkMsg "Hello"] (by decide)⟩

/-- C5: the order metric, as a function of the message count and the
branching count, is monotone non-decreasing in each argument, and classify
reports an order in 1..4 for every non-empty message sequence. -/
theorem c5_order_monotone_and_range :
    (∀ mc mc' bp bp' : Nat, mc ≤ mc' → bp ≤ bp' →
      orderOf mc bp ≤ orderOf mc' bp') ∧
    (∀ messages : List Message, messages ≠ [] →
      (calculateTopology messages).order ∈ [1, 2, 3, 4]) := by
  constructor
  · intro mc mc' bp bp' h1 h2
    unfold orderOf
    dsimp only
    split_ifs <;> omega
  · intro messages h
    rw [calculateTopology_of_ne_nil messages h]
    exact orderOf_mem_range messages.length (messages.countP fun m => isBranching m)

/-- C5 (witness): monotonicity and range at concrete inputs. -/
theorem c5_order_monotone_and_range_witness :
    orderOf 3 0 ≤ orderOf 16 5 ∧
    (calculateTopology [mkMsg "Hello"]).order ∈ [1, 2, 3, 4] :=
  ⟨c5_order_monotone_and_range.1 3 16 0 5 (by decide) (by decide),
   c5_order_monotone_and_range.2 [mkMsg "Hello"] (by decide)⟩

/-- C6: for every non-empty message sequence the prime-factor list is
non-empty, and it is exactly the singleton fallback tag p1 precisely when
threads below 2, order below 2 and nesting depth at most 2 hold together. -/
theorem c6_prime_factors (messages : List Message) (h : messages ≠ []) :
    (calculateTopology messages).primeFactors ≠ [] ∧
    ((calculateTopology messages).primeFactors = ["p1"] ↔
      (calculateTopology messages).threads < 2 ∧
      (calculateTopology messages).order < 2 ∧
      (calculateTopology messages).nestingDepth ≤ 2) := by
  rw [calculateTopology_of_ne_nil messages h]
  exact primeFactors_spec (analyzeThreads messages)

/-- C6 (witness): the prime-factor law at a concrete one-message input. -/
theorem c6_prime_factors_witness :
    ([mkMsg "Hello"] : List Message) ≠ [] ∧
    ((calculateTopology [mkMsg "Hello"]).primeFactors ≠ [] ∧
     ((calculateTopology [mkMsg "Hello"]).primeFactors = ["p1"] ↔
       (calculateTopology [mkMsg "Hello"]).threads < 2 ∧
       (calculateTopology [mkMsg "Hello"]).order < 2 ∧
       (calculateTopology [mkMsg "Hello"]).nestingDepth ≤ 2)) :=
  ⟨by decide, c6_prime_factors [mkMsg "Hello"] (by decide)⟩

/-- C7 (counterexample): order-1 stability fails at the empty message list,
which satisfies both hypotheses (0 messages, 0 branching points) yet renders
the empty pattern rather than the order-1 pattern. -/
theorem c7_empty_breaks_stability :
    ([] : List Message).length ≤ 3 ∧
    (([] : List Message).countP fun m => isBranching m) ≤ 2 ∧
    (calculateTopology []).pattern ≠ "s1=\x7b[()]\x7d" := by
  decide

/-- C7 (amended): every NON-EMPTY message sequence with at most 3 messages
and at most 2 branching points classifies to the fixed order-1 pattern
string, independent of message content beyond the branching signals. -/
theorem c7_order_one_stability (messages : List Message) (h : messages ≠ [])
    (hlen : messages.length ≤ 3)
    (hb : (messages.countP fun m => isBranching m) ≤ 2) :
    (calculateTopology messages).pattern = "s1=\x7b[()]\x7d" := by
  rw [calculateTopology_of_ne_nil messages h]
  show renderPattern (analyzeThreads messages).order (analyzeThreads messages).threads
    (analyzeThreads messages).nestingDepth = _
  have horder : (analyzeThreads messages).order = 1 :=
    orderOf_eq_one messages.length (messages.countP fun m => isBranching m) hlen hb
  rw [horder]
  rfl

/-- C7 (witness): order-1 stability at a concrete one-message input. -/
theorem c7_order_one_stability_witness :
    ([mkMsg "Hello"] : List Message) ≠ [] ∧
    ([mkMsg "Hello"] : List Message).length ≤ 3 ∧
    (([mkMsg "Hello"] : List Message).countP fun m => isBranching m) ≤ 2 ∧
    (calculateTopology [mkMsg "Hello"]).pattern = "s1=\x7b[()]\x7d" :=
  ⟨by decide, by decide, by decide,
   c7_order_one_stability [mkMsg "Hello"] (by decide) (by decide) (by decide)⟩

/-- C8: classify at the empty message list returns exactly the fixed empty
topology value: empty pattern string, order 0, threads 0, complexity label
empty, no prime factors, empty structure lists with participatory s0, and
nesting depth 0. -/
theorem c8_empty_topology :
    calculateTopology [] =
      { pattern := "s0=\x7b\x7d"
        order := 0
        threads := 0
        complexity := "empty"
        primeFactors := []
        struct := { procedural := [], perspectival := [], participatory := "s0" }
        nestingDepth := 0 } :=
  rfl

/-- C9: the export document preserves, for each message in order, its id,
role, content and creation timestamp; its topology section carries the input
pattern unchanged; and its metadata reports participant count 2 and total
messages equal to the length of the message list. -/
theorem c9_export_roundtrip (sessionId : String) (session : Session)
    (messages : List Message) (topology : TopologyPattern) (now : String) :
    ((exportSessionToJson sessionId session messages topology now).messages.map
        fun em => (em.id, em.role, em.content, em.timestamp)) =
      (messages.map fun m => (m.id, m.role, m.content, m.createdAt)) ∧
    (exportSessionToJson sessionId session messages topology now).topology.pattern =
      topology.pattern ∧
    (exportSessionToJson sessionId session messages topology now).metadata.participant_count
      = 2 ∧
    (exportSessionToJson sessionId session messages topology now).metadata.total_messages
      = messages.length := by
  refine ⟨?_, rfl, rfl, rfl⟩
  simp [exportSessionToJson, List.map_map]

/-- C10: for every non-empty message sequence, the fallback tag p1 occurs in
the prime-factor list only as the full singleton list: it never appears
alongside any other tag. -/
theorem c10_p1_only_singleton (messages : List Message) (h : messages ≠ [])
    (hp : "p1" ∈ (calculateTopology messages).primeFactors) :
    (calculateTopology messages).primeFactors = ["p1"] := by
  rw [calculateTopology_of_ne_nil messages h] at hp ⊢
  exact primeFactors_p1_mem (analyzeThreads messages) hp

/-- C10 (witness): the singleton law at a concrete one-message input. -/
theorem c10_p1_only_singleton_witness :
    ([mkMsg "Hello"] : List Message) ≠ [] ∧
    "p1" ∈ (calculateTopology [mkMsg "Hello"]).primeFactors ∧
    (calculateTopology [mkMsg "Hello"]).primeFactors = ["p1"] :=
  ⟨by decide, by decide,
   c10_p1_only_singleton [mkMsg "Hello"] (by decide) (by decide)⟩

end ChatFlow
